import Mathlib

/-!
Verification of the Candour Coffee operational dashboard core
(src/CoffeeApp.py). The core decision layer consists of:

* the KPI traffic-light classifier `get_kpi_color` (lines 39-43),
* the inline inventory reorder check (lines 139-142) driven by the
  module constants `ROP_VAL`, `EOQ_VAL`, `SAFETY_STOCK` (lines 28-30),
* the capacity simulation `sim_data` (lines 192-195) driven by the
  cycle-time constants and `SHIFT_SEC` (lines 33-36),
* the hourly throughput figure `int(3600 / curr_cycle)` (line 168).

Numbers are embedded as rationals: every numeric literal occurring in
the core (37, 215, 12.5, 35.0, 29.0, 12.0, 25200, 3600, slider values)
is exactly representable, and all arithmetic the core performs on them
(comparison, division, truncation) is exact at these magnitudes.
-/

/-- Traffic-light status of a KPI (spec data model `KpiStatus`). -/
inductive KpiStatus where
  | OPTIMAL
  | WARNING
  | CRITICAL
  deriving DecidableEq, Repr

/-- Reorder Point in kg, source line 28: `ROP_VAL = 37`. -/
def ROP_VAL : ℚ := 37

/-- Economic Order Quantity in kg, source line 29: `EOQ_VAL = 215`. -/
def EOQ_VAL : ℚ := 215

/-- Safety buffer in kg, source line 30: `SAFETY_STOCK = 12.5`. -/
def SAFETY_STOCK : ℚ := 12.5

/-- Manual-process cycle time, source line 33: `BASELINE_CT = 35.0`. -/
def BASELINE_CT : ℚ := 35

/-- U-shaped-layout cycle time, source line 34: `OPTIMIZED_CT = 29.0`. -/
def OPTIMIZED_CT : ℚ := 29

/-- Semi-automation cycle time, source line 35: `AUTOMATED_CT = 12.0`. -/
def AUTOMATED_CT : ℚ := 12

/-- Shift duration in seconds, source line 36: `SHIFT_SEC = 7 * 3600`. -/
def SHIFT_SEC : ℚ := 7 * 3600

/-- Source lines 39-43, argument order as in the source
(`def get_kpi_color(value, red, yellow)`): returns the status label and
the Streamlit alert level. -/
def get_kpi_color (value red yellow : ℚ) : String × String :=
  if value ≥ red then ("🔴 CRITICAL", "error")
  else if value ≥ yellow then ("🟡 WARNING", "warning")
  else ("🟢 OPTIMAL", "success")

/-- The status component of `get_kpi_color` as the `KpiStatus` value,
under the spec contract argument order `classify(value, yellow, red)`.
The branch structure is that of source lines 41-43. -/
def KpiClassifier.classify (value yellow red : ℚ) : KpiStatus :=
  if value ≥ red then .CRITICAL
  else if value ≥ yellow then .WARNING
  else .OPTIMAL

/-- The label string the source attaches to each status. -/
def statusLabel : KpiStatus → String
  | .CRITICAL => "🔴 CRITICAL"
  | .WARNING => "🟡 WARNING"
  | .OPTIMAL => "🟢 OPTIMAL"

/-- Severity order OPTIMAL < WARNING < CRITICAL used by the spec's
monotonicity property. -/
def severity : KpiStatus → ℕ
  | .OPTIMAL => 0
  | .WARNING => 1
  | .CRITICAL => 2

/-- Spec data model `InventoryState`. In the source the last three
fields are the module constants `ROP_VAL`, `EOQ_VAL`, `SAFETY_STOCK`
(lines 28-30), which the spec treats as externally supplied
configuration (spec section 6). -/
structure InventoryState where
  current_stock : ℚ
  reorder_point : ℚ
  economic_order_qty : ℚ
  safety_stock : ℚ
  deriving DecidableEq, Repr

/-- Spec data model `InventoryDecision`. -/
structure InventoryDecision where
  needs_reorder : Bool
  recommended_order_qty : ℚ
  deriving DecidableEq, Repr

/-- Source lines 139-142: `if curr_stock <= ROP_VAL` raises the reorder
alert quoting `EOQ_VAL`, else reports a healthy level. The recommended
quantity is always the configured EOQ; `safety_stock` is only displayed
(line 149) and never read here. -/
def InventoryPolicy.evaluate (state : InventoryState) : InventoryDecision :=
  ⟨decide (state.current_stock ≤ state.reorder_point), state.economic_order_qty⟩

/-- The single error kind named by the spec's error taxonomy. -/
inductive CoreError where
  | InvalidInput
  deriving DecidableEq, Repr

/-- Error-aware view of the source inventory check: the source code at
lines 139-142 performs no validation and has no error path, so every
input yields a decision. -/
def InventoryPolicy.evaluateE (state : InventoryState) :
    Except CoreError InventoryDecision :=
  .ok (InventoryPolicy.evaluate state)

/-- Spec-side definition, following the spec's words (sections 4.1 and
7): evaluation must fail with `InvalidInput` when `current_stock < 0`.
Stated separately so it can be compared with the source behaviour
`InventoryPolicy.evaluateE`. -/
def InventoryPolicy.evaluateSpec (state : InventoryState) :
    Except CoreError InventoryDecision :=
  if state.current_stock < 0 then .error .InvalidInput
  else .ok (InventoryPolicy.evaluate state)

/-- Spec data model `ProcessStage`. -/
structure ProcessStage where
  name : String
  cycle_time_seconds : ℚ
  deriving DecidableEq, Repr

/-- Spec data model `CapacityResult`. -/
structure CapacityResult where
  stage_name : String
  daily_capacity_units : ℚ
  deriving DecidableEq, Repr

/-- Source lines 192-195: one `shift / cycle_time` capacity per stage,
in the order the stages are listed. -/
def CapacitySimulator.simulate (shift_duration_seconds : ℚ)
    (stages : List ProcessStage) : List CapacityResult :=
  stages.map fun s => ⟨s.name, shift_duration_seconds / s.cycle_time_seconds⟩

/-- The concrete stage list of source lines 193-194. -/
def sim_stages : List ProcessStage :=
  [⟨"Manual (Baseline)", BASELINE_CT⟩,
   ⟨"U-Layout (Optimized)", OPTIMIZED_CT⟩,
   ⟨"Semi-Automation", AUTOMATED_CT⟩]

/-- Source lines 192-195: the chart data frame. -/
def sim_data : List CapacityResult :=
  CapacitySimulator.simulate SHIFT_SEC sim_stages

/-- Truncation toward zero on rationals, the behaviour of Python
`int()` on a number. -/
def ratTrunc (q : ℚ) : ℤ := if 0 ≤ q then ⌊q⌋ else ⌈q⌉

/-- Source line 168: `hourly_output = int(3600 / curr_cycle)`. -/
def hourly_output (curr_cycle : ℚ) : ℤ := ratTrunc (3600 / curr_cycle)

/-! ## Claim theorems -/

/-- C1: for every numeric value and thresholds yellow ≤ red, the
classifier evaluates red-first with inclusive comparisons — CRITICAL
exactly when value ≥ red, WARNING exactly when yellow ≤ value < red,
OPTIMAL exactly when value < yellow — the status matches the label
`get_kpi_color` produces, and in particular classify(40, yellow := 35,
red := 40) = CRITICAL and classify(34, yellow := 35, red := 40) =
OPTIMAL. -/
theorem kpi_classifier_rule (value yellow red : ℚ) (h : yellow ≤ red) :
    (KpiClassifier.classify value yellow red = .CRITICAL ↔ red ≤ value) ∧
    (KpiClassifier.classify value yellow red = .WARNING ↔
      yellow ≤ value ∧ value < red) ∧
    (KpiClassifier.classify value yellow red = .OPTIMAL ↔ value < yellow) ∧
    (get_kpi_color value red yellow).1 =
      statusLabel (KpiClassifier.classify value yellow red) ∧
    KpiClassifier.classify 40 35 40 = .CRITICAL ∧
    KpiClassifier.classify 34 35 40 = .OPTIMAL := by
  refine ⟨?_, ?_, ?_, ?_, by decide, by decide⟩ <;>
    simp only [KpiClassifier.classify, get_kpi_color] <;>
    split_ifs <;> simp_all [statusLabel] <;> try linarith

/-- Witness for C1 at value 40, yellow 35, red 40. -/
theorem kpi_classifier_rule_witness :
    (KpiClassifier.classify 40 35 40 = .CRITICAL ↔ (40 : ℚ) ≤ 40) ∧
    (KpiClassifier.classify 40 35 40 = .WARNING ↔
      (35 : ℚ) ≤ 40 ∧ (40 : ℚ) < 40) ∧
    (KpiClassifier.classify 40 35 40 = .OPTIMAL ↔ (40 : ℚ) < 35) ∧
    (get_kpi_color 40 40 35).1 =
      statusLabel (KpiClassifier.classify 40 35 40) ∧
    KpiClassifier.classify 40 35 40 = .CRITICAL ∧
    KpiClassifier.classify 34 35 40 = .OPTIMAL :=
  kpi_classifier_rule 40 35 40 (by norm_num)

/-- C2: `needs_reorder` is true exactly when current_stock ≤
reorder_point, boundary inclusive; with the configured reorder point 37
the source flags stock 37 and accepts stock 45. -/
theorem inventory_reorder_rule :
    (∀ state : InventoryState,
      ((InventoryPolicy.evaluate state).needs_reorder = true ↔
        state.current_stock ≤ state.reorder_point)) ∧
    (InventoryPolicy.evaluate ⟨37, ROP_VAL, EOQ_VAL, SAFETY_STOCK⟩).needs_reorder
      = true ∧
    (InventoryPolicy.evaluate ⟨45, ROP_VAL, EOQ_VAL, SAFETY_STOCK⟩).needs_reorder
      = false := by
  refine ⟨fun state => ?_, by decide, by decide⟩
  simp [InventoryPolicy.evaluate]

/-- C6: for fixed thresholds with yellow ≤ red, classification severity
is non-decreasing in the metric value, under the order
OPTIMAL < WARNING < CRITICAL. -/
theorem classify_severity_monotone (yellow red v1 v2 : ℚ)
    (hyr : yellow ≤ red) (h12 : v1 ≤ v2) :
    severity (KpiClassifier.classify v1 yellow red) ≤
      severity (KpiClassifier.classify v2 yellow red) := by
  have h := hyr
  unfold KpiClassifier.classify
  split_ifs <;> simp [severity] <;> linarith

/-- Witness for C6 at yellow 35, red 40, values 34 and 41. -/
theorem classify_severity_monotone_witness :
    severity (KpiClassifier.classify 34 35 40) ≤
      severity (KpiClassifier.classify 41 35 40) :=
  classify_severity_monotone 35 40 34 41 (by norm_num) (by norm_num)

/-- C9: with degenerate thresholds red ≤ yellow the WARNING branch is
unreachable: every value classifies CRITICAL exactly when value ≥ red
and OPTIMAL exactly when value < red. -/
theorem classify_degenerate_thresholds (value yellow red : ℚ)
    (h : red ≤ yellow) :
    KpiClassifier.classify value yellow red ≠ .WARNING ∧
    (KpiClassifier.classify value yellow red = .CRITICAL ↔ red ≤ value) ∧
    (KpiClassifier.classify value yellow red = .OPTIMAL ↔ value < red) := by
  unfold KpiClassifier.classify
  split_ifs <;> simp_all <;> linarith

/-- Witness for C9 at value 38, yellow 40, red 35. -/
theorem classify_degenerate_thresholds_witness :
    KpiClassifier.classify 38 40 35 ≠ .WARNING ∧
    (KpiClassifier.classify 38 40 35 = .CRITICAL ↔ (35 : ℚ) ≤ 38) ∧
    (KpiClassifier.classify 38 40 35 = .OPTIMAL ↔ (38 : ℚ) < 35) :=
  classify_degenerate_thresholds 38 40 35 (by norm_num)

/-- C5: on every state satisfying the data-model invariants, the
recommended order quantity is the configured economic_order_qty,
whatever the current stock — the order size never scales with the
deficit. -/
theorem recommended_qty_is_eoq (state : InventoryState)
    (h1 : 0 ≤ state.current_stock) (h2 : 0 ≤ state.reorder_point)
    (h3 : 0 < state.economic_order_qty) (h4 : 0 ≤ state.safety_stock) :
    (InventoryPolicy.evaluate state).recommended_order_qty =
      state.economic_order_qty := rfl

/-- Witness for C5 at the configured state with stock 2 far below the
reorder point 37. -/
theorem recommended_qty_is_eoq_witness :
    (InventoryPolicy.evaluate ⟨2, ROP_VAL, EOQ_VAL, SAFETY_STOCK⟩).recommended_order_qty
      = EOQ_VAL :=
  recommended_qty_is_eoq ⟨2, ROP_VAL, EOQ_VAL, SAFETY_STOCK⟩
    (by norm_num) (by norm_num [ROP_VAL]) (by norm_num [EOQ_VAL])
    (by norm_num [SAFETY_STOCK])

/-- C3: for every shift duration and every stage list with positive
cycle times, simulate returns one result per stage, keeping the input
order, with daily_capacity_units = shift / cycle_time; in particular at
shift 25200 the stages with cycle times 35, 29, 12 yield 720, 25200/29
and 2100 in that order. -/
theorem simulate_per_stage_order (shift : ℚ) (stages : List ProcessStage)
    (hpos : ∀ s ∈ stages, 0 < s.cycle_time_seconds) :
    (CapacitySimulator.simulate shift stages).length = stages.length ∧
    (CapacitySimulator.simulate shift stages).map (fun c => c.stage_name) =
      stages.map (fun s => s.name) ∧
    (CapacitySimulator.simulate shift stages).map
        (fun c => c.daily_capacity_units) =
      stages.map (fun s => shift / s.cycle_time_seconds) ∧
    CapacitySimulator.simulate 25200
        [⟨"Manual", 35⟩, ⟨"Optimized", 29⟩, ⟨"Automated", 12⟩] =
      [⟨"Manual", 720⟩, ⟨"Optimized", 25200 / 29⟩, ⟨"Automated", 2100⟩] := by
  refine ⟨?_, ?_, ?_, by norm_num [CapacitySimulator.simulate]⟩ <;>
    simp [CapacitySimulator.simulate, List.map_map, Function.comp]

/-- Witness for C3 at the concrete shift and stage list of the source. -/
theorem simulate_per_stage_order_witness :
    (CapacitySimulator.simulate SHIFT_SEC sim_stages).length =
      sim_stages.length ∧
    (CapacitySimulator.simulate SHIFT_SEC sim_stages).map
        (fun c => c.stage_name) =
      sim_stages.map (fun s => s.name) ∧
    (CapacitySimulator.simulate SHIFT_SEC sim_stages).map
        (fun c => c.daily_capacity_units) =
      sim_stages.map (fun s => SHIFT_SEC / s.cycle_time_seconds) ∧
    CapacitySimulator.simulate 25200
        [⟨"Manual", 35⟩, ⟨"Optimized", 29⟩, ⟨"Automated", 12⟩] =
      [⟨"Manual", 720⟩, ⟨"Optimized", 25200 / 29⟩, ⟨"Automated", 2100⟩] :=
  simulate_per_stage_order SHIFT_SEC sim_stages (by
    intro s hs
    simp [sim_stages, BASELINE_CT, OPTIMIZED_CT, AUTOMATED_CT] at hs
    rcases hs with h | h | h <;> rw [h] <;> norm_num)

/-- C7: doubling the shift duration exactly doubles every stage's
daily_capacity_units, stage by stage. -/
theorem simulate_scale_invariant (shift : ℚ) (stages : List ProcessStage)
    (hpos : ∀ s ∈ stages, 0 < s.cycle_time_seconds) :
    (CapacitySimulator.simulate (2 * shift) stages).map
        (fun c => c.daily_capacity_units) =
      (CapacitySimulator.simulate shift stages).map
        (fun c => 2 * c.daily_capacity_units) := by
  simp [CapacitySimulator.simulate, List.map_map, Function.comp, mul_div_assoc]

/-- Witness for C7 at the concrete shift and stage list of the source. -/
theorem simulate_scale_invariant_witness :
    (CapacitySimulator.simulate (2 * SHIFT_SEC) sim_stages).map
        (fun c => c.daily_capacity_units) =
      (CapacitySimulator.simulate SHIFT_SEC sim_stages).map
        (fun c => 2 * c.daily_capacity_units) :=
  simulate_scale_invariant SHIFT_SEC sim_stages (by
    intro s hs
    simp [sim_stages, BASELINE_CT, OPTIMIZED_CT, AUTOMATED_CT] at hs
    rcases hs with h | h | h <;> rw [h] <;> norm_num)

/-- C8: for every positive cycle time the hourly throughput figure is
the integer truncation of 3600 / cycle_time (which, the quotient being
positive, is its floor: the unique integer within 1 below it), and at
cycle time 29 it equals 124. -/
theorem hourly_output_truncates (ct : ℚ) (h : 0 < ct) :
    hourly_output ct = ⌊(3600 : ℚ) / ct⌋ ∧
    ((hourly_output ct : ℚ) ≤ 3600 / ct ∧
      (3600 : ℚ) / ct < hourly_output ct + 1) ∧
    hourly_output 29 = 124 := by
  have hq : (0 : ℚ) ≤ 3600 / ct := div_nonneg (by norm_num) h.le
  have h1 : hourly_output ct = ⌊(3600 : ℚ) / ct⌋ := by
    simp [hourly_output, ratTrunc, hq]
  refine ⟨h1, ⟨?_, ?_⟩, by norm_num [hourly_output, ratTrunc, Int.floor_eq_iff]⟩
  · rw [h1]; exact Int.floor_le _
  · rw [h1]; exact Int.lt_floor_add_one _

/-- Witness for C8 at cycle time 29. -/
theorem hourly_output_truncates_witness :
    hourly_output 29 = ⌊(3600 : ℚ) / 29⌋ ∧
    ((hourly_output 29 : ℚ) ≤ 3600 / 29 ∧
      (3600 : ℚ) / 29 < hourly_output 29 + 1) ∧
    hourly_output 29 = 124 :=
  hourly_output_truncates 29 (by norm_num)

/-- C10: two evaluations agreeing on current_stock, reorder_point and
economic_order_qty but differing arbitrarily in safety_stock yield the
identical decision — safety_stock is never read by the decision
logic. -/
theorem safety_stock_noninterference (s1 s2 : InventoryState)
    (hc : s1.current_stock = s2.current_stock)
    (hr : s1.reorder_point = s2.reorder_point)
    (he : s1.economic_order_qty = s2.economic_order_qty) :
    InventoryPolicy.evaluate s1 = InventoryPolicy.evaluate s2 := by
  simp [InventoryPolicy.evaluate, hc, hr, he]

/-- Witness for C10: safety stock 12.5 versus 999 with the other fields
equal. -/
theorem safety_stock_noninterference_witness :
    InventoryPolicy.evaluate ⟨45, 37, 215, 12.5⟩ =
      InventoryPolicy.evaluate ⟨45, 37, 215, 999⟩ :=
  safety_stock_noninterference ⟨45, 37, 215, 12.5⟩ ⟨45, 37, 215, 999⟩
    rfl rfl rfl

/-- C4 counterexample: the code performs no validation. At
current_stock = -1 the source inventory check returns a full decision
(reorder true, quantity 215) instead of failing, diverging from the
spec-side validating definition; and the simulator applied to a stage
with negative cycle time returns a (negative) capacity rather than
failing. -/
theorem no_invalid_input_counterexample :
    InventoryPolicy.evaluateE ⟨-1, 37, 215, 12.5⟩ = .ok ⟨true, 215⟩ ∧
    InventoryPolicy.evaluateSpec ⟨-1, 37, 215, 12.5⟩ =
      .error .InvalidInput ∧
    CapacitySimulator.simulate 25200 [⟨"Broken", -5⟩] =
      [⟨"Broken", -5040⟩] :=
  ⟨rfl, rfl, by norm_num [CapacitySimulator.simulate]⟩

/-- C4 amended: the source never raises InvalidInput. For every state
with current_stock < 0 (and a non-negative reorder point) the source
evaluation still produces the full decision, with needs_reorder true —
exactly where the spec-side validating definition fails with
InvalidInput — and the cycle times the simulator actually divides by
are the fixed positive constants 35, 29, 12, so the non-positive
cycle-time case never arises in the code. -/
theorem no_invalid_input_amended (state : InventoryState)
    (hneg : state.current_stock < 0) (hrop : 0 ≤ state.reorder_point) :
    InventoryPolicy.evaluateE state = .ok ⟨true, state.economic_order_qty⟩ ∧
    InventoryPolicy.evaluateSpec state = .error .InvalidInput ∧
    (∀ s ∈ sim_stages, 0 < s.cycle_time_seconds) := by
  refine ⟨?_, ?_, by decide⟩
  · simp [InventoryPolicy.evaluateE, InventoryPolicy.evaluate]
    linarith
  · simp [InventoryPolicy.evaluateSpec, hneg]

/-- Witness for the amended C4 at current_stock = -1 with the
configured reorder point. -/
theorem no_invalid_input_amended_witness :
    InventoryPolicy.evaluateE ⟨-1, 37, 215, 12.5⟩ = .ok ⟨true, 215⟩ ∧
    InventoryPolicy.evaluateSpec ⟨-1, 37, 215, 12.5⟩ =
      .error .InvalidInput ∧
    (∀ s ∈ sim_stages, 0 < s.cycle_time_seconds) :=
  no_invalid_input_amended ⟨-1, 37, 215, 12.5⟩ (by norm_num) (by norm_num)
